import Mathlib

/-!
Verification of the event-booking ETL pipeline.

The pipeline (etl_preprocessor.py, etl_utils.py) transforms event-booking
records: it normalizes raw columns, merges a legacy dataset with the current
one, computes derived financial and attendance metrics, canonicalizes menu
labels, derives date and category dimensions, and filters/aggregates report
views.

Shallow embedding conventions:
- a DataFrame is a `List` of record structures (row order = list order);
- count columns (int dtype) are `Int`, monetary columns (float dtype) are
  `Rat` (every formula in the source is exact +,*, so rationals model the
  float arithmetic faithfully on the values that occur);
- string cells are `String`; Python `str.lower()` is modelled by an ASCII
  case-fold (`str_lower`), which agrees with Python on every string the
  pipeline compares (the only non-ASCII characters that occur, e.g. `ã`,
  are already lowercase);
- pandas operations that raise are modelled with `Except`.
-/

namespace SiteEventos

/-! ## Data model: one row of the consolidated events table

Fields mirror the columns used by `calculos_automaticos`
(etl_preprocessor.py lines 89-121).  At that point of the pipeline the
count columns are `int`, the money columns are `float`, and
`manter_total_previsto` is already boolean. -/

structure Event where
  etapa : String
  manter_total_previsto : Bool
  convidados_previstos : Int
  kids : Int
  convidados_presentes : Int
  kids_presentes : Int
  preco : Rat
  preco_kids : Rat
  valor_extra : Rat
  total_convidados_previsto : Int := 0
  valor_total_previsto : Rat := 0
  total_convidados_presentes : Int := 0
  valor_total_realizado : Rat := 0
  deriving Repr, DecidableEq

/-- `calculos_automaticos` (etl_preprocessor.py lines 89-121): recomputes the
forecast totals, then the present totals and the realized value with
`np.where` / `np.select` keyed on the stage and the retain-forecast flag.
The two `np.select` conditions are tried in order with default 0. -/
def calculos_automaticos (e : Event) : Event :=
  { e with
    total_convidados_previsto := e.convidados_previstos + e.kids,
    valor_total_previsto :=
      e.preco * (e.convidados_previstos : Rat) + (e.kids : Rat) * e.preco_kids,
    total_convidados_presentes :=
      if e.etapa = "Realizado" then e.convidados_presentes + e.kids_presentes else 0,
    valor_total_realizado :=
      if e.etapa = "Realizado" ∧ e.manter_total_previsto = true then
        (e.preco * (e.convidados_previstos : Rat) + (e.kids : Rat) * e.preco_kids)
          + e.valor_extra
      else if e.etapa = "Realizado" ∧ e.manter_total_previsto = false then
        (e.convidados_presentes : Rat) * e.preco
          + (e.kids_presentes : Rat) * e.preco_kids + e.valor_extra
      else 0 }

/-- The concrete record of the spec's example scenario: stage `Realizado`,
flag false, 40 adult guests and 5 kids present, prices 100 / 50, extras 200. -/
def exemplo_realizado : Event :=
  { etapa := "Realizado"
    manter_total_previsto := false
    convidados_previstos := 30
    kids := 2
    convidados_presentes := 40
    kids_presentes := 5
    preco := 100
    preco_kids := 50
    valor_extra := 200 }

/-- Claim C1: after `calculos_automaticos`, the realized value is 0 when the
stage is not `Realizado`; equals the (recomputed) forecast value plus extra
charges when the stage is `Realizado` and the retain-forecast flag is true;
and equals `present_guests*price + present_kids*kid_price + extra_charges`
when the stage is `Realizado` and the flag is false. -/
theorem valor_realizado_politica (e : Event) :
    (e.etapa ≠ "Realizado" → (calculos_automaticos e).valor_total_realizado = 0) ∧
    (e.etapa = "Realizado" → e.manter_total_previsto = true →
      (calculos_automaticos e).valor_total_realizado
        = (calculos_automaticos e).valor_total_previsto + e.valor_extra) ∧
    (e.etapa = "Realizado" → e.manter_total_previsto = false →
      (calculos_automaticos e).valor_total_realizado
        = (e.convidados_presentes : Rat) * e.preco
            + (e.kids_presentes : Rat) * e.preco_kids + e.valor_extra) := by
  refine ⟨fun h => ?_, fun h1 h2 => ?_, fun h1 h2 => ?_⟩
  · simp [calculos_automaticos, h]
  · simp [calculos_automaticos, h1, h2]
  · simp [calculos_automaticos, h1, h2]

/-- Claim C1 witness: the spec's example record (stage `Realizado`, flag
false, 40 guests, 5 kids, price 100, kid price 50, extras 200) gets realized
value 4450. -/
theorem valor_realizado_politica_exemplo :
    (calculos_automaticos exemplo_realizado).valor_total_realizado = 4450 := by
  rw [(valor_realizado_politica exemplo_realizado).2.2 rfl rfl]
  norm_num [exemplo_realizado]

/-- Claim C2: after `calculos_automaticos`, the present-guest total is 0 when
the stage is not `Realizado`, and equals `convidados_presentes +
kids_presentes` when the stage is `Realizado`. -/
theorem total_presentes_politica (e : Event) :
    (e.etapa ≠ "Realizado" → (calculos_automaticos e).total_convidados_presentes = 0) ∧
    (e.etapa = "Realizado" → (calculos_automaticos e).total_convidados_presentes
        = e.convidados_presentes + e.kids_presentes) := by
  refine ⟨fun h => ?_, fun h => ?_⟩ <;> simp [calculos_automaticos, h]

/-- Claim C2 witness: on the example `Realizado` record the present total is
40 + 5 = 45, and on the same record with stage `Fechado` it is 0. -/
theorem total_presentes_politica_exemplo :
    (calculos_automaticos exemplo_realizado).total_convidados_presentes = 45 ∧
    (calculos_automaticos { exemplo_realizado with etapa := "Fechado"
      }).total_convidados_presentes = 0 := by
  constructor
  · rw [(total_presentes_politica exemplo_realizado).2 rfl]; decide
  · exact (total_presentes_politica _).1 (by decide)

/-! ## C3: boolean normalization of the retain-forecast column

etl_preprocessor.py lines 176-179:
`np.where(df["manter_total_previsto"] == "FALSE", 0, 1).astype(bool)` —
the raw cells are strings straight from the sheet (this runs before the
empty-string → NaN replacement). -/

/-- Conversion of a raw `manter_total_previsto` cell to a boolean. -/
def manter_previsto_bool (s : String) : Bool :=
  if s = "FALSE" then false else true

/-- Claim C3: the exact string `"FALSE"` maps to false and every other raw
value (empty or unexpected strings included) maps to true. -/
theorem manter_previsto_bool_politica :
    manter_previsto_bool "FALSE" = false ∧
    ∀ s : String, s ≠ "FALSE" → manter_previsto_bool s = true := by
  refine ⟨rfl, fun s h => ?_⟩
  simp [manter_previsto_bool, h]

/-- Claim C3 witness: the empty string and the lowercase spelling both map
to true, while `"FALSE"` maps to false. -/
theorem manter_previsto_bool_politica_exemplo :
    manter_previsto_bool "" = true ∧ manter_previsto_bool "false" = true := by
  exact ⟨manter_previsto_bool_politica.2 "" (by decide),
    manter_previsto_bool_politica.2 "false" (by decide)⟩

/-! ## C4: record reconciliation (etl_preprocessor.py lines 197-224)

The legacy table (`dados_anos_anteriores`) has a different schema: column
`resp_evento` instead of `resp`, `qtde_convidados` instead of
`convidados_previstos`, no `local` column and no `manter_total_previsto`
column.  The code renames the columns, inserts the constant venue
`"Thai House"`, sets `manter_total_previsto = True` on every legacy row,
and concatenates `pd.concat([df_anos_ant, df])` — legacy first, current
second, both in their original order (`ignore_index=True`). -/

structure LegacyRow where
  resp_evento : String
  data_contato : String
  data_evento : String
  etapa : String
  qtde_convidados : Int
  cardapio : String
  preco : Rat
  deriving Repr, DecidableEq

/-- A row of the canonical (current-period) schema, restricted to the fields
the reconciliation claim is about. -/
structure CanonRow where
  «local» : String
  resp : String
  data_contato : String
  data_evento : String
  etapa : String
  convidados_previstos : Int
  cardapio : String
  preco : Rat
  manter_total_previsto : Bool
  deriving Repr, DecidableEq

/-- Per-row harmonization of a legacy row to the canonical schema: rename
`resp_evento` → `resp`, `qtde_convidados` → `convidados_previstos`, inject
`local = "Thai House"` and `manter_total_previsto = True`. -/
def legacy_para_canonico (l : LegacyRow) : CanonRow :=
  { «local» := "Thai House"
    resp := l.resp_evento
    data_contato := l.data_contato
    data_evento := l.data_evento
    etapa := l.etapa
    convidados_previstos := l.qtde_convidados
    cardapio := l.cardapio
    preco := l.preco
    manter_total_previsto := true }

/-- `pd.concat([df_anos_ant, df], axis=0, ignore_index=True)` after the
legacy table has been harmonized: legacy rows first, current rows second. -/
def concat_tabelas (legacy : List LegacyRow) (current : List CanonRow) :
    List CanonRow :=
  legacy.map legacy_para_canonico ++ current

/-- Claim C4: the merged table has exactly `len(legacy) + len(current)` rows;
its first `len(legacy)` rows are the harmonized legacy rows in their original
order and the remaining rows are the current rows in their original order
(so every legacy row precedes every current row); and every row of the
legacy prefix has `manter_total_previsto = true` even though `LegacyRow`
carries no such column. -/
theorem concat_tabelas_reconciliacao (legacy : List LegacyRow)
    (current : List CanonRow) :
    (concat_tabelas legacy current).length = legacy.length + current.length ∧
    (concat_tabelas legacy current).take legacy.length
      = legacy.map legacy_para_canonico ∧
    (concat_tabelas legacy current).drop legacy.length = current ∧
    ∀ r, r ∈ (concat_tabelas legacy current).take legacy.length →
      r.manter_total_previsto = true := by
  have hlen : (legacy.map legacy_para_canonico).length = legacy.length :=
    List.length_map _ _
  refine ⟨?_, ?_, ?_, ?_⟩
  · simp [concat_tabelas]
  · rw [concat_tabelas, ← hlen, List.take_left]
  · rw [concat_tabelas, ← hlen, List.drop_left]
  · intro r hr
    rw [concat_tabelas, ← hlen, List.take_left] at hr
    obtain ⟨l, _, rfl⟩ := List.mem_map.1 hr
    rfl

/-- First row of the concrete legacy table used in the C4 example. -/
def legado_ana : LegacyRow :=
  { resp_evento := "Ana", data_contato := "01/02/2020",
    data_evento := "10/03/2020", etapa := "Realizado",
    qtde_convidados := 20, cardapio := "Phuket", preco := 90 }

/-- A concrete legacy table with three rows (no retain-forecast column). -/
def legado3 : List LegacyRow :=
  [legado_ana,
   { resp_evento := "Bia", data_contato := "05/06/2020",
     data_evento := "20/07/2020", etapa := "Realizado",
     qtde_convidados := 35, cardapio := "Koh Samet", preco := 80 },
   { resp_evento := "Caio", data_contato := "02/08/2021",
     data_evento := "15/09/2021", etapa := "Fechado",
     qtde_convidados := 50, cardapio := "Especial", preco := 110 }]

/-- A concrete current-period table with two rows. -/
def atual2 : List CanonRow :=
  [{ «local» := "Thai House", resp := "Dani", data_contato := "03/04/2024",
     data_evento := "11/05/2024", etapa := "Negociando",
     convidados_previstos := 60, cardapio := "Kafae", preco := 120,
     manter_total_previsto := false },
   { «local» := "River", resp := "Edu", data_contato := "07/08/2024",
     data_evento := "19/09/2024", etapa := "Realizado",
     convidados_previstos := 25, cardapio := "Sushi-01", preco := 150,
     manter_total_previsto := true }]

/-- Claim C4 witness: merging the three-row legacy table with the two-row
current table yields 3 + 2 rows, and the first legacy row ends up with
`manter_total_previsto = true`. -/
theorem concat_tabelas_reconciliacao_exemplo :
    (concat_tabelas legado3 atual2).length = 3 + 2 ∧
    (legacy_para_canonico legado_ana).manter_total_previsto = true := by
  refine ⟨(concat_tabelas_reconciliacao legado3 atual2).1, ?_⟩
  exact (concat_tabelas_reconciliacao legado3 atual2).2.2.2 _ (by decide)

/-! ## C5: schema validation (etl_preprocessor.py lines 162-174)

`df = df[columns_manter].copy()` selects the mandatory columns by name;
pandas raises a `KeyError` listing the requested labels that are not in the
frame's columns when any of them is absent.  We model the raw frame as a
header plus rows of string cells and the selection as an `Except` whose
error constructor carries the missing labels. -/

structure RawTable where
  header : List String
  rows : List (List String)
  deriving Repr

inductive SchemaError where
  | missingColumns : List String → SchemaError
  deriving Repr, DecidableEq

/-- Cell lookup by column name within one row (positions follow the header). -/
def lookupCell (header row : List String) (c : String) : String :=
  match header.indexOf? c with
  | some i => row.getD i ""
  | none => ""

/-- `columns_manter` (etl_preprocessor.py lines 162-168): the mandatory
column set selected from the normalized current-period frame. -/
def columns_manter : List String :=
  ["local", "kids_presentes", "sinal", "resp", "empresa", "cardápio", "kids",
   "preço_kids", "convidados_presentes", "convidados_previstos",
   "forma_de_pagamento", "etapa", "telefone", "valor_extra",
   "horário_início", "situação", "email", "data_contato", "observação",
   "data_evento", "preço", "tipo", "contato", "manter_total_previsto"]

/-- The requested labels that are absent from the frame's header. -/
def missingColumnsOf (cols : List String) (t : RawTable) : List String :=
  cols.filter (fun c => ¬ c ∈ t.header)

/-- `df[cols]` on a raw frame: if every requested column is present, project
each row onto the requested columns (in the requested order); otherwise fail
with the list of missing labels, as pandas label selection does. -/
def selectColumns (cols : List String) (t : RawTable) :
    Except SchemaError RawTable :=
  match missingColumnsOf cols t with
  | [] => .ok { header := cols,
                rows := t.rows.map (fun r => cols.map (lookupCell t.header r)) }
  | missing => .error (.missingColumns missing)

/-- `true` exactly on the error outcome of a column selection. -/
def eSchemaError (r : Except SchemaError RawTable) : Bool :=
  match r with
  | .error _ => true
  | .ok _ => false

/-- Claim C5: if any mandatory column is entirely absent from the normalized
input table, selecting `columns_manter` fails with a `SchemaError`; and the
selection does not fail when every mandatory column is present (so the
failure is a surfaced abort, not a silent skip or a spurious error). -/
theorem selecao_schema_politica (t : RawTable) :
    (∀ c, c ∈ columns_manter → c ∉ t.header →
      eSchemaError (selectColumns columns_manter t) = true) ∧
    ((∀ c, c ∈ columns_manter → c ∈ t.header) →
      eSchemaError (selectColumns columns_manter t) = false) := by
  constructor
  · intro c hc hna
    have hmem : c ∈ missingColumnsOf columns_manter t := by
      rw [missingColumnsOf, List.mem_filter]
      exact ⟨hc, by simpa using hna⟩
    rcases hfil : missingColumnsOf columns_manter t with _ | ⟨a, l⟩
    · rw [hfil] at hmem; cases hmem
    · simp [selectColumns, eSchemaError, hfil]
  · intro hall
    have hfil : missingColumnsOf columns_manter t = [] := by
      rw [missingColumnsOf, List.filter_eq_nil_iff]
      intro c hc
      simpa using hall c hc
    simp [selectColumns, eSchemaError, hfil]

/-- A header missing exactly the `manter_total_previsto` column. -/
def cabecalho_incompleto : RawTable :=
  { header := ["local", "kids_presentes", "sinal", "resp", "empresa",
      "cardápio", "kids", "preço_kids", "convidados_presentes",
      "convidados_previstos", "forma_de_pagamento", "etapa", "telefone",
      "valor_extra", "horário_início", "situação", "email", "data_contato",
      "observação", "data_evento", "preço", "tipo", "contato"],
    rows := [] }

/-- Claim C5 witness: a table whose header lacks `manter_total_previsto`
makes the mandatory-column selection fail with a `SchemaError`. -/
theorem selecao_schema_politica_exemplo :
    eSchemaError (selectColumns columns_manter cabecalho_incompleto) = true :=
  (selecao_schema_politica cabecalho_incompleto).1 "manter_total_previsto"
    (by decide) (by decide)

/-! ## C6: legacy-source availability (etl_preprocessor.py lines 190-195)

```
try:
    df_anos_ant = get_google_sheet_data(...)
except FileNotFoundError:
    df_anos_ant = pd.DataFrame(columns=columns_manter)
```

Only `FileNotFoundError` is caught; any other exception raised by the fetch
(e.g. gspread's `SpreadsheetNotFound` or an `APIError`) propagates and
aborts the run.  We model the fetch outcome as an `Except` over the
exception kinds in play. -/

inductive FetchError where
  | fileNotFound
  | spreadsheetNotFound
  | apiError
  deriving Repr, DecidableEq

/-- The `try/except FileNotFoundError` wrapper around the legacy fetch:
a `FileNotFoundError` is replaced by an empty legacy table, every other
outcome (success or any other exception) passes through unchanged. -/
def carrega_legado (fetch : Except FetchError (List LegacyRow)) :
    Except FetchError (List LegacyRow) :=
  match fetch with
  | .error .fileNotFound => .ok []
  | r => r

/-- Claim C6 counterexample: a legacy fetch failing with
`SpreadsheetNotFound` is NOT replaced by an empty legacy table — the error
propagates, so the pipeline does not continue with current-period data.
This refutes the claim that a fetch failing "for any reason" is recovered. -/
theorem carrega_legado_contraexemplo :
    carrega_legado (.error .spreadsheetNotFound)
        = (.error .spreadsheetNotFound : Except FetchError (List LegacyRow)) ∧
    carrega_legado (.error .spreadsheetNotFound)
        ≠ (.ok [] : Except FetchError (List LegacyRow)) := by
  refine ⟨rfl, fun h => ?_⟩
  cases h

/-- Claim C6 (amended): a legacy fetch failing with `FileNotFoundError` is
replaced by an empty legacy table and processing continues; a fetch failing
with any other error kind propagates unchanged, and a successful fetch is
kept. -/
theorem carrega_legado_politica :
    carrega_legado (.error .fileNotFound) = (.ok [] : Except FetchError (List LegacyRow)) ∧
    (∀ e : FetchError, e ≠ .fileNotFound →
      carrega_legado (.error e) = .error e) ∧
    (∀ rows : List LegacyRow, carrega_legado (.ok rows) = .ok rows) := by
  refine ⟨rfl, fun e he => ?_, fun rows => rfl⟩
  cases e
  · exact absurd rfl he
  · rfl
  · rfl

/-- Claim C6 witness: an `apiError` fetch outcome propagates unchanged. -/
theorem carrega_legado_politica_exemplo :
    carrega_legado (.error .apiError)
      = (.error .apiError : Except FetchError (List LegacyRow)) :=
  carrega_legado_politica.2.1 .apiError (by decide)

/-! ## C7: menu canonicalization (etl_preprocessor.py lines 289-309)

Per cell, the code first applies a chain of exact-value replacements
(`Series.replace` with scalars replaces whole cell values only), then keeps
the value when its `str.lower()` belongs to the combined allow-list
`menu_completo` and overwrites it with `"Especial"` otherwise. -/

/-- Python `str.lower()` restricted to ASCII letters.  On every string the
pipeline compares (the allow-list, the typo keys and their images) the only
non-ASCII character is `ã`, which is already lowercase, so this agrees with
Python there. -/
def char_lower (c : Char) : Char :=
  if 'A' ≤ c ∧ c ≤ 'Z' then Char.ofNat (c.toNat + 32) else c

/-- ASCII case-fold of a whole string (model of Python `str.lower()`). -/
def str_lower (s : String) : String :=
  ⟨s.data.map char_lower⟩

/-- The typo-correction chain
`.replace("Ko Lanta", "Koh Lanta").replace(...)...`: exact full-value
replacements for five known misspellings. -/
def corrige_cardapio (s : String) : String :=
  if s = "Ko Lanta" then "Koh Lanta"
  else if s = "Ko Pee Pee" then "Koh Pee Pee"
  else if s = "Ko Sak" then "Koh Sak"
  else if s = "Dia Dos Namorados" then "Namorados"
  else if s = "Koh Sammet" then "Koh Samet"
  else s

/-- The five allow-list groups, verbatim from the source. -/
def fast : List String := ["kafae", "ma-li", "pi-leh", "ko mattra", "koh kood"]

def padrao : List String :=
  ["Phuket", "Koh Pee Pee", "Koh Sak", "Koh Lanta", "Ko mai Thon", "ko nom sao"]

def economico : List String := ["koh samet", "krab", "krab"]

def nao_definido : List String := ["Não Informado", "a definir"]

def card_river : List String := ["Sushi-01", "Sushi-02", "Sushi-03"]

/-- `menu_completo = list(set(item.lower() for item in fast + padrao +
economico + nao_definido + card_river))`: the deduplicated lowercase
allow-list (only membership matters downstream). -/
def menu_completo : List String :=
  ((fast ++ padrao ++ economico ++ nao_definido ++ card_river).map
    str_lower).dedup

/-- One full canonicalizer pass over a single menu cell: typo correction,
then the case-folded membership test against `menu_completo`, with
`"Especial"` as the catch-all. -/
def canonicaliza_cardapio (s : String) : String :=
  if str_lower (corrige_cardapio s) ∈ menu_completo then corrige_cardapio s
  else "Especial"

/-- Helper: a value whose case-fold passes the allow-list is not one of the
five typo keys, hence the correction chain leaves it unchanged. -/
theorem corrige_cardapio_fix {t : String}
    (h : str_lower t ∈ menu_completo) : corrige_cardapio t = t := by
  rw [corrige_cardapio]
  split_ifs with h1 h2 h3 h4 h5
  · subst h1; exact absurd h (by decide)
  · subst h2; exact absurd h (by decide)
  · subst h3; exact absurd h (by decide)
  · subst h4; exact absurd h (by decide)
  · subst h5; exact absurd h (by decide)
  · rfl

/-- Claim C7: the menu canonicalizer is idempotent — a second pass never
changes a label — and any label whose typo-corrected, case-folded form is
outside the allow-list becomes exactly `"Especial"`. -/
theorem canonicaliza_cardapio_politica (s : String) :
    canonicaliza_cardapio (canonicaliza_cardapio s) = canonicaliza_cardapio s ∧
    (str_lower (corrige_cardapio s) ∉ menu_completo →
      canonicaliza_cardapio s = "Especial") := by
  constructor
  · by_cases h : str_lower (corrige_cardapio s) ∈ menu_completo
    · have hs : canonicaliza_cardapio s = corrige_cardapio s := by
        rw [canonicaliza_cardapio, if_pos h]
      rw [hs, canonicaliza_cardapio, corrige_cardapio_fix h, if_pos h]
    · have hs : canonicaliza_cardapio s = "Especial" := by
        rw [canonicaliza_cardapio, if_neg h]
      rw [hs]
      decide
  · intro h
    rw [canonicaliza_cardapio, if_neg h]

/-- Claim C7 witness: `"Feijoada"` is outside the allow-list and becomes
`"Especial"`; a second pass applied on top of `"Banquete"` agrees with the
first pass. -/
theorem canonicaliza_cardapio_politica_exemplo :
    canonicaliza_cardapio "Feijoada" = "Especial" ∧
    canonicaliza_cardapio (canonicaliza_cardapio "Banquete")
      = canonicaliza_cardapio "Banquete" :=
  ⟨(canonicaliza_cardapio_politica "Feijoada").2 (by decide),
   (canonicaliza_cardapio_politica "Banquete").1⟩

/-! ## C8: categorical stage codes (etl_utils.py lines 73-99)

`DataProcess._create_category` runs
`df[cat_col].astype('category')` followed by `.cat.codes`.  For a string
column, pandas infers the categories as the *sorted* distinct values and the
code of a cell is its category's position in that sorted order.  We model
the distinct values with `dedup` and the pandas sort with insertion sort
under the lexicographic order on strings (any correct sort of a duplicate-
free list yields the same list). -/

/-- Lexicographic strict order on char lists, comparing code points — the
order Python / pandas uses on strings. -/
def chars_lt : List Char → List Char → Bool
  | [], [] => false
  | [], _ :: _ => true
  | _ :: _, [] => false
  | a :: as, b :: bs =>
    if a < b then true else if b < a then false else chars_lt as bs

/-- Strict lexicographic order on strings (model of Python `<`). -/
def str_lt (s t : String) : Prop := chars_lt s.data t.data = true

/-- Reflexive lexicographic order on strings, as the sort comparator. -/
def str_le (s t : String) : Prop := chars_lt t.data s.data = false

instance str_lt_dec : DecidableRel str_lt := by
  intro s t
  rw [str_lt]
  infer_instance

instance str_le_dec : DecidableRel str_le := by
  intro s t
  rw [str_le]
  infer_instance

theorem chars_lt_irrefl (a : List Char) : chars_lt a a = false := by
  induction a with
  | nil => rfl
  | cons c cs ih => simp [chars_lt, ih]

theorem chars_lt_cons {x y : Char} {xs ys : List Char} :
    chars_lt (x :: xs) (y :: ys) = true
      ↔ x < y ∨ (x = y ∧ chars_lt xs ys = true) := by
  rw [chars_lt]
  rcases lt_trichotomy x y with h | h | h
  · simp [h]
  · subst h
    simp [lt_irrefl]
  · simp [asymm h, h, ne_of_gt h]

theorem chars_lt_trans {a b c : List Char} (h1 : chars_lt a b = true)
    (h2 : chars_lt b c = true) : chars_lt a c = true := by
  induction a generalizing b c with
  | nil =>
    cases b with
    | nil => simp [chars_lt] at h1
    | cons y ys =>
      cases c with
      | nil => simp [chars_lt] at h2
      | cons z zs => rfl
  | cons x xs ih =>
    cases b with
    | nil => simp [chars_lt] at h1
    | cons y ys =>
      cases c with
      | nil => simp [chars_lt] at h2
      | cons z zs =>
        rw [chars_lt_cons] at h1 h2 ⊢
        rcases h1 with h1 | ⟨rfl, h1⟩
        · rcases h2 with h2 | ⟨rfl, h2⟩
          · exact Or.inl (lt_trans h1 h2)
          · exact Or.inl h1
        · rcases h2 with h2 | ⟨rfl, h2⟩
          · exact Or.inl h2
          · exact Or.inr ⟨rfl, ih h1 h2⟩

theorem chars_lt_eq_of_not {a b : List Char} (h1 : chars_lt a b = false)
    (h2 : chars_lt b a = false) : a = b := by
  induction a generalizing b with
  | nil =>
    cases b with
    | nil => rfl
    | cons y ys => simp [chars_lt] at h1
  | cons x xs ih =>
    cases b with
    | nil => simp [chars_lt] at h2
    | cons y ys =>
      rw [chars_lt] at h1 h2
      rcases lt_trichotomy x y with h | h | h
      · rw [if_pos h] at h1
        simp at h1
      · subst h
        rw [if_neg (lt_irrefl x), if_neg (lt_irrefl x)] at h1
        rw [if_neg (lt_irrefl x), if_neg (lt_irrefl x)] at h2
        rw [ih h1 h2]
      · rw [if_pos h] at h2
        simp at h2

instance str_le_total : IsTotal String str_le := by
  constructor
  intro a b
  by_cases h : chars_lt b.data a.data = false
  · exact Or.inl h
  · right
    rw [str_le]
    rw [Bool.not_eq_false] at h
    cases hab : chars_lt a.data b.data
    · rfl
    · exact absurd (chars_lt_irrefl a.data)
        (by simp [chars_lt_trans hab h])

instance str_le_trans : IsTrans String str_le := by
  constructor
  intro a b c h1 h2
  rw [str_le] at h1 h2 ⊢
  cases hca : chars_lt c.data a.data
  · rfl
  · exfalso
    cases hbc : chars_lt b.data c.data
    · have : c.data = b.data := chars_lt_eq_of_not h2 hbc
      rw [this] at hca
      simp [hca] at h1
    · have := chars_lt_trans hbc hca
      simp [this] at h1

/-- Two strings with the same character data are equal. -/
theorem str_data_ext {s t : String} (h : s.data = t.data) : s = t := by
  cases s
  cases t
  exact congrArg String.mk h

/-- The inferred category list: the distinct values of the column in
lexicographically sorted order (pandas `astype('category')` default). -/
def categorias (col : List String) : List String :=
  (col.dedup).insertionSort str_le

/-- `cat.codes` for one cell: the position of its value in the inferred
category list.  (Missing values, which pandas codes as -1, do not occur in
this column.) -/
def cod_etapa (col : List String) (v : String) : Nat :=
  (categorias col).indexOf v

/-- The whole derived `cod_etapa` column. -/
def cod_etapa_col (col : List String) : List Nat :=
  col.map (cod_etapa col)

/-- Claim C8 counterexample: on the column `["Realizado", "Fechado"]` the
first-seen order would assign `Realizado ↦ 0, Fechado ↦ 1`, but the code
assigns `Realizado ↦ 1, Fechado ↦ 0` (alphabetical order), so the claim's
assignment order is refuted at this concrete input. -/
theorem cod_etapa_contraexemplo :
    cod_etapa_col ["Realizado", "Fechado"] = [1, 0] ∧
    cod_etapa ["Realizado", "Fechado"] "Realizado" ≠ 0 := by
  decide

/-- Claim C8 (amended): codes follow the lexicographically sorted order of
the distinct stage values — for values occurring in the column, code order
coincides with alphabetical (code-point) order of the values (hence the
assignment is reproducible for a fixed input row order, and in fact for any
row order). -/
theorem cod_etapa_ordenado (col : List String) (v w : String)
    (hv : v ∈ col) (hw : w ∈ col) :
    cod_etapa col v < cod_etapa col w ↔ str_lt v w := by
  have hperm : List.Perm (categorias col) col.dedup :=
    List.perm_insertionSort _ _
  have hnd : (categorias col).Nodup := hperm.nodup_iff.2 (List.nodup_dedup col)
  have hsort : (categorias col).Sorted str_le :=
    List.sorted_insertionSort _ _
  have hv2 : v ∈ categorias col := hperm.mem_iff.2 (List.mem_dedup.2 hv)
  have hw2 : w ∈ categorias col := hperm.mem_iff.2 (List.mem_dedup.2 hw)
  have hvlt := List.indexOf_lt_length.2 hv2
  have hwlt := List.indexOf_lt_length.2 hw2
  have hgv : (categorias col).get ⟨cod_etapa col v, hvlt⟩ = v :=
    List.indexOf_get hvlt
  have hgw : (categorias col).get ⟨cod_etapa col w, hwlt⟩ = w :=
    List.indexOf_get hwlt
  constructor
  · intro hlt
    have hle : str_le v w := by
      rw [← hgv, ← hgw]
      exact hsort.rel_get_of_lt hlt
    rw [str_le] at hle
    rw [str_lt]
    cases hvw : chars_lt v.data w.data
    · exact absurd (str_data_ext (chars_lt_eq_of_not hvw hle))
        (fun heq => Nat.ne_of_lt hlt (by rw [heq]))
    · rfl
  · intro hvw
    rw [str_lt] at hvw
    rcases Nat.lt_trichotomy (cod_etapa col v) (cod_etapa col w) with h | h | h
    · exact h
    · exfalso
      have heq : v = w := by
        rw [← hgv, ← hgw]
        exact congrArg _ (Fin.ext h)
      rw [heq, chars_lt_irrefl] at hvw
      cases hvw
    · exfalso
      have hle : str_le w v := by
        rw [← hgw, ← hgv]
        exact hsort.rel_get_of_lt h
      rw [str_le, hvw] at hle
      cases hle

/-- Claim C8 witness: on the column `["Realizado", "Fechado"]`, the code of
`"Fechado"` is below the code of `"Realizado"`, matching the alphabetical
order of the two values. -/
theorem cod_etapa_ordenado_exemplo :
    cod_etapa ["Realizado", "Fechado"] "Fechado"
      < cod_etapa ["Realizado", "Fechado"] "Realizado" :=
  (cod_etapa_ordenado ["Realizado", "Fechado"] "Fechado" "Realizado"
    (by decide) (by decide)).2 (by decide)

/-! ## C9: predicate filter (etl_utils.py, `FilterSelection.run_filter`,
lines 175-231)

Each criterion is guarded by `if filter_x and self.x_select:` — Python
truthiness, so `None` and `[]` both make an *active* criterion a no-op with
a printed warning.  The year criterion uses `is not None` instead of
truthiness.  We return the surviving rows together with the list of
criteria for which the no-op warning was printed. -/

inductive Criterio where
  | place
  | stage
  | year
  deriving Repr, DecidableEq

/-- A processed row with the display columns `run_filter` consults. -/
structure ProcRow where
  «Local» : String
  «Etapa» : String
  ano_evento : Int
  deriving Repr, DecidableEq

/-- Python truthiness of an optional list (`None` and `[]` are falsy). -/
def truthy_list (o : Option (List String)) : Bool :=
  match o with
  | none => false
  | some l => !l.isEmpty

/-- `FilterSelection.run_filter`: applies the place, stage and year criteria
in that order; an active criterion whose selection is falsy (empty/None)
leaves the rows untouched and records the warning instead. -/
def run_filter (place_select stage_select : Option (List String))
    (year_select : Option Int)
    (filter_place filter_stage filter_year : Bool)
    (df : List ProcRow) : List ProcRow × List Criterio :=
  let s1 : List ProcRow × List Criterio :=
    if filter_place then
      if truthy_list place_select then
        (df.filter (fun r => (place_select.getD []).contains r.Local), [])
      else (df, [Criterio.place])
    else (df, [])
  let s2 : List ProcRow × List Criterio :=
    if filter_stage then
      if truthy_list stage_select then
        (s1.1.filter (fun r => (stage_select.getD []).contains r.Etapa), s1.2)
      else (s1.1, s1.2 ++ [Criterio.stage])
    else s1
  if filter_year then
    match year_select with
    | some y => (s2.1.filter (fun r => r.ano_evento == y), s2.2)
    | none => (s2.1, s2.2 ++ [Criterio.year])
  else s2

/-- Claim C9: with the place and stage criteria active, a truthy (non-empty)
venue selection and an empty/None stage selection, the result is exactly the
venue-filtered rows — the stage criterion is a no-op — and the no-op
diagnostic is recorded for the stage criterion only; moreover, when all
three criteria are active with empty selections nothing is filtered and a
diagnostic is recorded for each criterion. -/
theorem run_filter_noop_politica (df : List ProcRow)
    (ps ss : Option (List String))
    (hps : truthy_list ps = true) (hss : truthy_list ss = false) :
    run_filter ps ss none true true false df
      = (df.filter (fun r => (ps.getD []).contains r.Local),
         [Criterio.stage]) ∧
    run_filter none none none true true true df
      = (df, [Criterio.place, Criterio.stage, Criterio.year]) := by
  constructor
  · rw [run_filter]
    simp [hps, hss]
  · rw [run_filter]
    simp [truthy_list]

/-- The ten-row table of the spec's filter example: six rows at venue `A`,
four at venue `B`. -/
def tabela10 : List ProcRow :=
  [{ «Local» := "A", «Etapa» := "Realizado", ano_evento := 2024 },
   { «Local» := "A", «Etapa» := "Fechado", ano_evento := 2024 },
   { «Local» := "B", «Etapa» := "Realizado", ano_evento := 2023 },
   { «Local» := "A", «Etapa» := "Negociando", ano_evento := 2024 },
   { «Local» := "B", «Etapa» := "Fechado", ano_evento := 2024 },
   { «Local» := "A", «Etapa» := "Realizado", ano_evento := 2022 },
   { «Local» := "B", «Etapa» := "Realizado", ano_evento := 2024 },
   { «Local» := "A", «Etapa» := "Fechado", ano_evento := 2023 },
   { «Local» := "A", «Etapa» := "Realizado", ano_evento := 2024 },
   { «Local» := "B", «Etapa» := "Negociando", ano_evento := 2024 }]

/-- Claim C9 witness: filtering the ten-row table with `venue_select=["A"]`
and an active but `None` stage selection returns the six venue-A rows, with
the no-op diagnostic recorded for the stage criterion only. -/
theorem run_filter_noop_politica_exemplo :
    (run_filter (some ["A"]) none none true true false tabela10).1.length = 6 ∧
    (run_filter (some ["A"]) none none true true false tabela10).2
      = [Criterio.stage] := by
  have h :=
    (run_filter_noop_politica tabela10 (some ["A"]) none rfl rfl).1
  rw [h]
  constructor
  · decide
  · rfl

/-! ## C10: the "previous month" selection of the `dre` aggregation
(etl_utils.py lines 259-266)

```
mes_anterior = data_hoje - relativedelta(months=1)
df_mes_anterior = df[df["Data evento"].dt.month == mes_anterior.month]
```

Only the month *number* is compared; the year of the event date is ignored. -/

/-- A calendar date (year, month number 1-12, day). -/
structure Data where
  year : Int
  month : Nat
  day : Nat
  deriving Repr, DecidableEq

/-- The month number of `today - relativedelta(months=1)`: the previous
calendar month, wrapping from January to December (day clamping never
changes the month number). -/
def mes_anterior_num (hoje : Data) : Nat :=
  if hoje.month = 1 then 12 else hoje.month - 1

/-- A row of the processed report table, restricted to the columns the
previous-month selection consults. -/
structure ReportRow where
  data_evento : Data
  «Local» : String
  «Etapa» : String
  valor_total_previsto : Rat
  valor_total_realizado : Rat
  deriving Repr, DecidableEq

/-- `df[df["Data evento"].dt.month == mes_anterior.month]`: the base table
of the three previous-month report views. -/
def df_mes_anterior (hoje : Data) (df : List ReportRow) : List ReportRow :=
  df.filter (fun r => r.data_evento.month == mes_anterior_num hoje)

/-- Claim C10: a row is selected into the previous-month views exactly when
its event-date month number equals the previous calendar month — the year
plays no role, so same-month rows of earlier years are included. -/
theorem df_mes_anterior_politica (hoje : Data) (df : List ReportRow)
    (r : ReportRow) :
    r ∈ df_mes_anterior hoje df
      ↔ r ∈ df ∧ r.data_evento.month = mes_anterior_num hoje := by
  rw [df_mes_anterior, List.mem_filter]
  simp

/-- Claim C10 witness: with today in October 2026, an event dated September
2023 — the right month number but three years back — is selected into the
previous-month rollup. -/
theorem df_mes_anterior_politica_exemplo :
    ({ data_evento := { year := 2023, month := 9, day := 5 },
       «Local» := "A", «Etapa» := "Realizado",
       valor_total_previsto := 1000, valor_total_realizado := 1200 } :
        ReportRow)
      ∈ df_mes_anterior { year := 2026, month := 10, day := 12 }
        [{ data_evento := { year := 2023, month := 9, day := 5 },
           «Local» := "A", «Etapa» := "Realizado",
           valor_total_previsto := 1000, valor_total_realizado := 1200 }] := by
  rw [df_mes_anterior_politica]
  constructor
  · simp
  · rfl

end SiteEventos
